import Mathlib

/-!
Shallow embedding of the `invoice_extractor` package
(`src/invoice_extractor/{config,models,validators,processor,cli}.py`).

Modelling conventions:
* Python `Optional[T]` fields become `Option T`; Python `None` is `none`.
* Python `str` becomes `String`; exceptions become `Except String _` errors.
* Python floats that only carry durations/scores become `ℚ` (`0.9 = 9/10`);
  the one place float *formatting* matters (`f"{bytes/1024/1024:.1f}"`) is
  modelled exactly: division by `2^20` is exact in binary floating point, and
  CPython renders the exact value with correct rounding, ties to even.
* The file system is a map from paths to `FileInfo` (byte size plus the
  outcome of libmagic MIME sniffing); `none` means the path does not exist.
* The external `zerox` backend call is abstracted as its outcome
  `Except String String`: `.error e` models the call raising an exception
  with message `e`, `.ok content` models it returning text `content`.
* `os.environ` mutation in `_setup_environment` becomes explicit state
  passing of an `Env` record.
-/

deriving instance DecidableEq for Except

namespace InvoicePipe

/-- Python truthiness of an `Optional[str]`: `None` and `""` are falsy. -/
def pyTruthy : Option String → Bool
  | none => false
  | some s => !s.isEmpty

/-- `settings` record from `config.py` (`Settings`), with the pydantic
field defaults. -/
structure Settings where
  openai_api_key : Option String := none
  openai_model : String := "gpt-4o"
  gemini_api_key : Option String := none
  gemini_model : String := "gemini-2.0-flash-exp"
  anthropic_api_key : Option String := none
  anthropic_model : String := "claude-3-5-sonnet-20241022"
  supported_formats : List String := ["pdf", "png", "jpg", "jpeg"]
  max_file_size_mb : Nat := 10
deriving Repr, DecidableEq

/-- `Settings.has_ai_provider`: `bool(openai or gemini or anthropic)`. -/
def Settings.has_ai_provider (s : Settings) : Bool :=
  pyTruthy s.openai_api_key || pyTruthy s.gemini_api_key ||
    pyTruthy s.anthropic_api_key

/-- `Settings.get_preferred_model`: first truthy key in the order
OpenAI, Gemini, Anthropic; raises `ValueError("No AI provider configured")`
when none is truthy. -/
def Settings.get_preferred_model (s : Settings) :
    Except String (String × String) :=
  if pyTruthy s.openai_api_key then
    .ok (s.openai_model, s.openai_api_key.getD "")
  else if pyTruthy s.gemini_api_key then
    .ok (s.gemini_model, s.gemini_api_key.getD "")
  else if pyTruthy s.anthropic_api_key then
    .ok (s.anthropic_model, s.anthropic_api_key.getD "")
  else
    .error "No AI provider configured"

/-- `models.LineItem`; `Decimal` fields become `Option ℚ`. -/
structure LineItem where
  description : Option String := none
  quantity : Option ℚ := none
  unit_price : Option ℚ := none
  total : Option ℚ := none
  tax_rate : Option ℚ := none
deriving Repr, DecidableEq

/-- `models.Address`. -/
structure Address where
  street : Option String := none
  city : Option String := none
  state : Option String := none
  zip_code : Option String := none
  country : Option String := none
deriving Repr, DecidableEq

/-- `models.Entity`. -/
structure Entity where
  name : Option String := none
  address : Option Address := none
  tax_id : Option String := none
  email : Option String := none
  phone : Option String := none
deriving Repr, DecidableEq

/-- `models.Totals`; calendar-free decimals as `Option ℚ`. -/
structure Totals where
  subtotal : Option ℚ := none
  tax : Option ℚ := none
  total : Option ℚ := none
  currency : String := "USD"
deriving Repr, DecidableEq

/-- `models.InvoiceData`; dates are modelled as strings since nothing in
scope ever constructs a non-null date. `line_items` has the Python type
`List[LineItem]` with default `[]`, so it is a `List`, not an `Option`. -/
structure InvoiceData where
  invoice_number : Option String := none
  date : Option String := none
  due_date : Option String := none
  vendor : Option Entity := none
  customer : Option Entity := none
  totals : Option Totals := none
  line_items : List LineItem := []
  notes : Option String := none
  payment_terms : Option String := none
deriving Repr, DecidableEq

/-- `models.ProcessingResult`. -/
structure ProcessingResult where
  success : Bool
  invoice_data : Option InvoiceData := none
  error_message : Option String := none
  processing_time : Option ℚ := none
  confidence_score : Option ℚ := none
deriving Repr, DecidableEq

/-- What the validator observes about an existing file: its byte size and
the result of `magic.from_file(path, mime=True)` (`Except.error d` models
the sniffing call raising with message `d`). -/
structure FileInfo where
  size : Nat
  mimeSniff : Except String String
deriving Repr, DecidableEq

/-- A file system: `none` means the path does not exist. -/
def FileSystem : Type := String → Option FileInfo

/-- `validators.validate_file_exists`. -/
def validate_file_exists (fs : FileSystem) (path : String) : Bool :=
  (fs path).isSome

/-- Round `n / d` to the nearest integer, ties to even: the rounding CPython
applies when formatting the (here exact) float `bytes / 2^20` with `:.1f`. -/
def roundHalfEven (n d : Nat) : Nat :=
  let q := n / d
  let r := n % d
  if 2 * r < d then q
  else if 2 * r > d then q + 1
  else if q % 2 = 0 then q else q + 1

/-- The string `f"{bytes/1024/1024:.1f}"`: the size in megabytes rendered
to one decimal. Exact because dividing by `2^20` is exact in doubles. -/
def sizeMBStr (bytes : Nat) : String :=
  let tenths := roundHalfEven (bytes * 10) 1048576
  toString (tenths / 10) ++ "." ++ toString (tenths % 10)

/-- `validators.validate_file_size` on an existing file's info. -/
def validate_file_size (s : Settings) (fi : FileInfo) : Bool × String :=
  let max_size := s.max_file_size_mb * 1024 * 1024
  if fi.size > max_size then
    (false, "File size (" ++ sizeMBStr fi.size ++ "MB) exceeds limit (" ++
      toString s.max_file_size_mb ++ "MB)")
  else
    (true, "")

/-- The `supported_mime_types` table inside `validate_file_format`. -/
def supported_mime_types : List (String × String) :=
  [("application/pdf", "pdf"), ("image/png", "png"),
   ("image/jpeg", "jpg"), ("image/jpg", "jpg")]

/-- `validators.validate_file_format` on an existing file's info. -/
def validate_file_format (s : Settings) (fi : FileInfo) : Bool × String :=
  match fi.mimeSniff with
  | .error e => (false, "Error detecting file type: " ++ e)
  | .ok mime =>
    match supported_mime_types.lookup mime with
    | none => (false, "Unsupported file type: " ++ mime)
    | some fmt =>
      if s.supported_formats.contains fmt then (true, fmt)
      else (false, "Format " ++ fmt ++ " not supported")

/-- `validators.validate_invoice_file`: existence, then size, then format;
first failure short-circuits. -/
def validate_invoice_file (s : Settings) (fs : FileSystem) (path : String) :
    Bool × String :=
  match fs path with
  | none => (false, "File not found: " ++ path)
  | some fi =>
    let sizeRes := validate_file_size s fi
    if sizeRes.1 = false then (false, sizeRes.2)
    else
      let fmtRes := validate_file_format s fi
      if fmtRes.1 = false then (false, fmtRes.2)
      else (true, "Valid " ++ fmtRes.2 ++ " file")

/-- The three provider environment variables written by
`InvoiceProcessor._setup_environment` (`os.environ`). -/
structure Env where
  openai_api_key : Option String := none
  gemini_api_key : Option String := none
  anthropic_api_key : Option String := none
deriving Repr, DecidableEq

/-- Boolean infix test on character lists: does `sub` occur contiguously? -/
def listInfix (sub : List Char) : List Char → Bool
  | [] => sub.isEmpty
  | c :: cs => sub.isPrefixOf (c :: cs) || listInfix sub cs

/-- Python `sub in s` on strings. -/
def strContains (s sub : String) : Bool :=
  listInfix sub.data s.data

/-- Python `s.lower()` (character-wise, which agrees on the ASCII model
identifiers in scope). -/
def pyLower (s : String) : String :=
  String.mk (s.data.map Char.toLower)

/-- Python `s[:n]`: the first `n` code points of `s`. -/
def pyTake (s : String) (n : Nat) : String :=
  String.mk (s.data.take n)

namespace InvoiceProcessor

/-- `InvoiceProcessor._setup_environment`: route the key by substring match
on the lowercased model; a model matching no pattern changes nothing. -/
def setupEnvironment (model api_key : String) (env : Env) : Env :=
  if strContains (pyLower model) "gpt" then
    { env with openai_api_key := some api_key }
  else if strContains (pyLower model) "gemini" then
    { env with gemini_api_key := some api_key }
  else if strContains (pyLower model) "claude" then
    { env with anthropic_api_key := some api_key }
  else
    env

/-- The state held by a constructed `InvoiceProcessor`, together with the
environment after `_setup_environment` ran. -/
structure State where
  model : String
  api_key : String
  env : Env
deriving Repr, DecidableEq

/-- `InvoiceProcessor.__init__`: raises
`ValueError("No AI provider configured. Please set API keys in .env file.")`
when no provider is configured; otherwise stores the preferred model and key
and sets up the environment. -/
def init (s : Settings) (env : Env) : Except String State :=
  if s.has_ai_provider = false then
    .error "No AI provider configured. Please set API keys in .env file."
  else
    match s.get_preferred_model with
    | .error e => .error e
    | .ok (m, k) => .ok { model := m, api_key := k,
                          env := setupEnvironment m k env }

/-- `InvoiceProcessor._parse_extracted_data`, body of the `try`: the stub
parser always returns this record (its `try` body cannot raise). -/
def parseExtractedData (content : String) : InvoiceData :=
  { invoice_number := some "Extracted from AI response",
    notes := some ("Raw extracted content: " ++ pyTake content 500 ++ "...") }

/-- The `except` handler of `_parse_extracted_data`: the record returned
if parsing were to raise with message `errMsg` (defensive, unreachable). -/
def parseFailureFallback (content errMsg : String) : InvoiceData :=
  { notes := some ("Parsing error: " ++ errMsg ++ ". Raw content: " ++
      pyTake content 200 ++ "...") }

/-- `InvoiceProcessor.process_invoice`: `backend` is the outcome of the
`zerox` call (the only statement in the `try` that can raise), `elapsed`
the measured `time.time() - start_time`. On success the parsed record is
wrapped with constant confidence `0.9`; an exception is wrapped as a failed
result with the `"Processing failed: "` prefix and no confidence. -/
def process_invoice (elapsed : ℚ) (backend : Except String String) :
    ProcessingResult :=
  match backend with
  | .ok content =>
    { success := true,
      invoice_data := some (parseExtractedData content),
      processing_time := some elapsed,
      confidence_score := some (9 / 10) }
  | .error e =>
    { success := false,
      error_message := some ("Processing failed: " ++ e),
      processing_time := some elapsed }

end InvoiceProcessor

/-- Constructing a processor and invoking `process_invoice` through it, as
a library caller would: a `.error` outcome models the constructor's
exception escaping to the caller before any `ProcessingResult` exists. -/
def processFromSettings (s : Settings) (env : Env) (elapsed : ℚ)
    (backend : Except String String) : Except String ProcessingResult :=
  (InvoiceProcessor.init s env).map
    (fun _ => InvoiceProcessor.process_invoice elapsed backend)

/-- Exit outcome of `cli.main`, keeping the data each branch reports:
`exitArg` is click's exit 2 for a nonexistent positional path, the three
`exit*` constructors are the `sys.exit(1)` branches (carrying the message
interpolated into the echoed line), `ok` is the exit-0 path. -/
inductive CliOutcome where
  | exitArg
  | exitConfig
  | exitValidation (reason : String)
  | exitProcessing (msg : String)
  | ok (r : ProcessingResult)
deriving Repr, DecidableEq

/-- `cli.main`: click rejects nonexistent input paths (exit 2); then the
provider guard, then `validate_invoice_file`, then processor construction
(its exception caught as "Unexpected error"), then `process_invoice_sync`,
failing results echoed as `"Processing failed: <error_message>"`. -/
def cliMain (s : Settings) (fs : FileSystem) (input_file : String)
    (env : Env) (elapsed : ℚ) (backend : Except String String) :
    CliOutcome :=
  if (fs input_file).isNone then .exitArg
  else if s.has_ai_provider = false then .exitConfig
  else
    let v := validate_invoice_file s fs input_file
    if v.1 = false then .exitValidation v.2
    else
      match InvoiceProcessor.init s env with
      | .error e => .exitProcessing ("Unexpected error: " ++ e)
      | .ok _ =>
        let r := InvoiceProcessor.process_invoice elapsed backend
        if r.success = false then
          .exitProcessing ("Processing failed: " ++
            (r.error_message.getD "None"))
        else .ok r

end InvoicePipe

namespace InvoicePipe

/-- Empty file system: no path exists. -/
def fsEmpty : FileSystem := fun _ => none

/-- Every path is a 100-byte PDF. -/
def fsPdf : FileSystem := fun _ => some ⟨100, .ok "application/pdf"⟩

/-- Every path is a PDF one byte over the default 10 MB limit. -/
def fsOversize : FileSystem := fun _ => some ⟨10485761, .ok "application/pdf"⟩

/-- Every path is a small plain-text file. -/
def fsPlain : FileSystem := fun _ => some ⟨100, .ok "text/plain"⟩

/-- Settings with only the OpenAI key (defaults elsewhere). -/
def sOpenAI : Settings := { openai_api_key := some "sk-o" }

/-- C1: a `ProcessingResult` returned by `process_invoice` has non-null
`invoice_data` and null `error_message` exactly when `success` is true,
and the converse when `success` is false. -/
theorem c1_result_envelope_invariant (elapsed : ℚ)
    (backend : Except String String) :
    ((InvoiceProcessor.process_invoice elapsed backend).invoice_data.isSome
        = (InvoiceProcessor.process_invoice elapsed backend).success) ∧
    ((InvoiceProcessor.process_invoice elapsed backend).error_message.isNone
        = (InvoiceProcessor.process_invoice elapsed backend).success) := by
  cases backend <;> exact ⟨rfl, rfl⟩

/-- C2 counterexample: with no credential configured, invoking process
through the constructor does not return any `ProcessingResult` (let alone a
failed one mentioning "No AI provider configured"): the constructor's
`ValueError` escapes, so the composed operation is an `error`, not an `ok`
envelope. -/
theorem c2_counterexample :
    processFromSettings {} {} 1 (.error "boom")
        = .error "No AI provider configured. Please set API keys in .env file."
      ∧ (processFromSettings {} {} 1 (.error "boom")).isOk = false := by
  decide

/-- C2 amended: when no provider is configured, `InvoiceProcessor.__init__`
raises `ValueError` whose message contains "No AI provider configured"
before `process_invoice` can run, and the CLI (for an existing input path)
exits with the configuration error instead. -/
theorem c2_no_provider_raises (s : Settings) (env : Env) (fs : FileSystem)
    (path : String) (elapsed : ℚ) (backend : Except String String)
    (hprov : s.has_ai_provider = false) (hex : (fs path).isSome = true) :
    processFromSettings s env elapsed backend
        = .error "No AI provider configured. Please set API keys in .env file."
      ∧ cliMain s fs path env elapsed backend = CliOutcome.exitConfig := by
  have hnone : (fs path).isNone = false := by
    cases h : fs path with
    | none => rw [h] at hex; simp at hex
    | some fi => rfl
  constructor
  · unfold processFromSettings InvoiceProcessor.init
    rw [hprov]
    rfl
  · simp [cliMain, hnone, hprov]

theorem c2_no_provider_raises_witness :
    (({} : Settings).has_ai_provider = false
        ∧ (fsPdf "a.pdf").isSome = true)
      ∧ (processFromSettings {} {} 1 (.error "boom")
          = .error "No AI provider configured. Please set API keys in .env file."
        ∧ cliMain {} fsPdf "a.pdf" {} 1 (.error "boom")
          = CliOutcome.exitConfig) :=
  ⟨⟨by decide, by decide⟩,
    c2_no_provider_raises {} {} fsPdf "a.pdf" 1 (.error "boom")
      (by decide) (by decide)⟩

/-- C3 counterexample: for a path that fails validation (file not found),
the orchestrator's `process_invoice` does not report the validator's
reason: it never invokes the validator, and the backend exception it
catches is wrapped with the "Processing failed: " prefix, a different
string. -/
theorem c3_counterexample :
    (validate_invoice_file {} fsEmpty "missing.pdf").1 = false
      ∧ (validate_invoice_file {} fsEmpty "missing.pdf").2
          = "File not found: missing.pdf"
      ∧ (InvoiceProcessor.process_invoice 1
            (.error "No such file or directory")).error_message
          = some "Processing failed: No such file or directory"
      ∧ (InvoiceProcessor.process_invoice 1
            (.error "No such file or directory")).error_message
          ≠ some "File not found: missing.pdf" := by
  decide

/-- C3 amended: validation happens in the CLI before processing, not inside
the orchestrator: for an existing input path, with a provider configured,
a validation failure makes the CLI exit 1 carrying exactly the validator's
reason, and `process_invoice` is never reached. -/
theorem c3_cli_validates_before_processing (s : Settings) (env : Env)
    (fs : FileSystem) (path : String) (elapsed : ℚ)
    (backend : Except String String)
    (hprov : s.has_ai_provider = true) (hex : (fs path).isSome = true)
    (hval : (validate_invoice_file s fs path).1 = false) :
    cliMain s fs path env elapsed backend
      = CliOutcome.exitValidation (validate_invoice_file s fs path).2 := by
  have hnone : (fs path).isNone = false := by
    cases h : fs path with
    | none => rw [h] at hex; simp at hex
    | some fi => rfl
  simp [cliMain, hnone, hprov, hval]

theorem c3_cli_validates_before_processing_witness :
    (sOpenAI.has_ai_provider = true
        ∧ (fsOversize "big.pdf").isSome = true
        ∧ (validate_invoice_file sOpenAI fsOversize "big.pdf").1 = false)
      ∧ cliMain sOpenAI fsOversize "big.pdf" {} 1 (.ok "text")
          = CliOutcome.exitValidation
              "File size (10.0MB) exceeds limit (10MB)" :=
  ⟨⟨by decide, by decide, by decide⟩, by
    have h := c3_cli_validates_before_processing sOpenAI {} fsOversize
      "big.pdf" 1 (.ok "text") (by decide) (by decide) (by decide)
    rw [h]
    decide⟩

end InvoicePipe

namespace InvoicePipe

/-- C4: the validator applies existence, size, and content-type checks in
that order, returning on the first failure with the corresponding reason,
and on a path passing all three returns `ok=true` with reason
`"Valid <fmt> file"` where `<fmt>` is the canonical form from the MIME
table. -/
theorem c4_validator_stages (s : Settings) (fs : FileSystem) (path : String)
    (fi : FileInfo) (mime fmt : String) :
    (fs path = none →
      validate_invoice_file s fs path = (false, "File not found: " ++ path))
    ∧ (fs path = some fi → (validate_file_size s fi).1 = false →
        validate_invoice_file s fs path = (false, (validate_file_size s fi).2))
    ∧ (fs path = some fi → (validate_file_size s fi).1 = true →
        (validate_file_format s fi).1 = false →
        validate_invoice_file s fs path
          = (false, (validate_file_format s fi).2))
    ∧ (fs path = some fi → (validate_file_size s fi).1 = true →
        fi.mimeSniff = .ok mime →
        supported_mime_types.lookup mime = some fmt →
        s.supported_formats.contains fmt = true →
        validate_invoice_file s fs path = (true, "Valid " ++ fmt ++ " file")) := by
  refine ⟨?_, ?_, ?_, ?_⟩
  · intro h
    simp [validate_invoice_file, h]
  · intro h hsz
    simp [validate_invoice_file, h, hsz]
  · intro h hsz hfmt
    simp [validate_invoice_file, h, hsz, hfmt]
  · intro h hsz hmime hlook hsup
    have hfmt : validate_file_format s fi = (true, fmt) := by
      simp only [validate_file_format, hmime, hlook, hsup, if_true]
    simp [validate_invoice_file, h, hsz, hfmt]

theorem c4_validator_stages_witness :
    validate_invoice_file {} fsEmpty "x.pdf" = (false, "File not found: x.pdf")
      ∧ validate_invoice_file {} fsOversize "big.pdf"
          = (false, (validate_file_size {}
              ⟨10485761, .ok "application/pdf"⟩).2)
      ∧ validate_invoice_file {} fsPlain "a.txt"
          = (false, (validate_file_format {} ⟨100, .ok "text/plain"⟩).2)
      ∧ validate_invoice_file {} fsPdf "a.pdf" = (true, "Valid pdf file") := by
  refine ⟨?_, ?_, ?_, ?_⟩
  · exact (c4_validator_stages {} fsEmpty "x.pdf" ⟨0, .ok ""⟩ "" "").1 rfl
  · exact (c4_validator_stages {} fsOversize "big.pdf"
      ⟨10485761, .ok "application/pdf"⟩ "" "").2.1 rfl (by decide)
  · exact (c4_validator_stages {} fsPlain "a.txt"
      ⟨100, .ok "text/plain"⟩ "" "").2.2.1 rfl (by decide) (by decide)
  · exact (c4_validator_stages {} fsPdf "a.pdf"
      ⟨100, .ok "application/pdf"⟩ "application/pdf" "pdf").2.2.2
      rfl (by decide) rfl (by decide) (by decide)

/-- C5: size validation passes iff the byte length is at most
`max_file_size_mb * 1048576`; a file of exactly that size passes, and any
larger file fails with the message carrying the size in megabytes rendered
to one decimal. -/
theorem c5_size_boundary (s : Settings) (fi : FileInfo) :
    ((validate_file_size s fi).1 = true
        ↔ fi.size ≤ s.max_file_size_mb * 1048576)
    ∧ (fi.size = s.max_file_size_mb * 1048576 →
        validate_file_size s fi = (true, ""))
    ∧ (fi.size > s.max_file_size_mb * 1048576 →
        validate_file_size s fi = (false,
          "File size (" ++ sizeMBStr fi.size ++ "MB) exceeds limit ("
            ++ toString s.max_file_size_mb ++ "MB)")) := by
  by_cases h : fi.size > s.max_file_size_mb * 1024 * 1024
  · refine ⟨?_, ?_, ?_⟩
    · simp only [validate_file_size, if_pos h]
      constructor
      · intro hc; exact absurd hc (by decide)
      · intro hle; omega
    · intro he; omega
    · intro _; simp [validate_file_size, h]
  · refine ⟨?_, ?_, ?_⟩
    · simp only [validate_file_size, if_neg h]
      constructor
      · intro _; omega
      · intro _; trivial
    · intro _; simp [validate_file_size, h]
    · intro hgt; omega

theorem c5_size_boundary_witness :
    validate_file_size {} ⟨10485760, .ok "application/pdf"⟩ = (true, "")
      ∧ validate_file_size {} ⟨10485761, .ok "application/pdf"⟩
          = (false, "File size (10.0MB) exceeds limit (10MB)") := by
  constructor
  · exact (c5_size_boundary {} ⟨10485760, .ok "application/pdf"⟩).2.1
      (by decide)
  · have h := (c5_size_boundary {} ⟨10485761, .ok "application/pdf"⟩).2.2
      (by decide)
    rw [h]
    decide

/-- C6 counterexample: on unstructured input the parser does not leave all
structured fields null: `invoice_number` is set to the constant placeholder
string. -/
theorem c6_counterexample :
    (InvoiceProcessor.parseExtractedData "not structured data").invoice_number
        = some "Extracted from AI response"
      ∧ (InvoiceProcessor.parseExtractedData
          "not structured data").invoice_number ≠ none := by
  decide

/-- C6 amended: the parser is total and never raises; on any input the
returned record carries the first 500 characters of the raw response in
`notes` (behind the prefix "Raw extracted content: "), sets
`invoice_number` to the constant placeholder "Extracted from AI response",
leaves every other structured field null (`line_items` empty), and the
internal failure handler produces `notes` of the form
"Parsing error: <detail>. Raw content: <first 200 chars>...". -/
theorem c6_parser_total_floor (content errMsg : String) :
    (InvoiceProcessor.parseExtractedData content).notes
        = some ("Raw extracted content: " ++ pyTake content 500 ++ "...")
      ∧ (InvoiceProcessor.parseExtractedData content).invoice_number
          = some "Extracted from AI response"
      ∧ (InvoiceProcessor.parseExtractedData content).date = none
      ∧ (InvoiceProcessor.parseExtractedData content).due_date = none
      ∧ (InvoiceProcessor.parseExtractedData content).vendor = none
      ∧ (InvoiceProcessor.parseExtractedData content).customer = none
      ∧ (InvoiceProcessor.parseExtractedData content).totals = none
      ∧ (InvoiceProcessor.parseExtractedData content).line_items = []
      ∧ (InvoiceProcessor.parseExtractedData content).payment_terms = none
      ∧ (InvoiceProcessor.parseFailureFallback content errMsg).notes
          = some ("Parsing error: " ++ errMsg ++ ". Raw content: "
              ++ pyTake content 200 ++ "...") :=
  ⟨rfl, rfl, rfl, rfl, rfl, rfl, rfl, rfl, rfl, rfl⟩

/-- C7: the preferred backend is selected in strict priority order
OpenAI, Gemini, Anthropic — the first with a truthy credential wins — and
the selection raises "No AI provider configured" exactly when no
credential is truthy. -/
theorem c7_preferred_model_priority (s : Settings) :
    (pyTruthy s.openai_api_key = true →
      s.get_preferred_model
        = .ok (s.openai_model, s.openai_api_key.getD ""))
    ∧ (pyTruthy s.openai_api_key = false →
        pyTruthy s.gemini_api_key = true →
        s.get_preferred_model
          = .ok (s.gemini_model, s.gemini_api_key.getD ""))
    ∧ (pyTruthy s.openai_api_key = false →
        pyTruthy s.gemini_api_key = false →
        pyTruthy s.anthropic_api_key = true →
        s.get_preferred_model
          = .ok (s.anthropic_model, s.anthropic_api_key.getD ""))
    ∧ (s.get_preferred_model = .error "No AI provider configured"
        ↔ s.has_ai_provider = false) := by
  refine ⟨?_, ?_, ?_, ?_⟩
  · intro h1
    simp [Settings.get_preferred_model, h1]
  · intro h1 h2
    simp [Settings.get_preferred_model, h1, h2]
  · intro h1 h2 h3
    simp [Settings.get_preferred_model, h1, h2, h3]
  · by_cases h1 : pyTruthy s.openai_api_key <;>
      by_cases h2 : pyTruthy s.gemini_api_key <;>
        by_cases h3 : pyTruthy s.anthropic_api_key <;>
          simp [Settings.get_preferred_model, Settings.has_ai_provider,
            h1, h2, h3]

/-- Settings with all three credentials present. -/
def sAllKeys : Settings :=
  { openai_api_key := some "o", gemini_api_key := some "g",
    anthropic_api_key := some "a" }

/-- Settings with the OpenAI credential removed. -/
def sGeminiAnthropic : Settings :=
  { gemini_api_key := some "g", anthropic_api_key := some "a" }

/-- Settings with only the Anthropic credential. -/
def sAnthropicOnly : Settings := { anthropic_api_key := some "a" }

theorem c7_preferred_model_priority_witness :
    sAllKeys.get_preferred_model = .ok ("gpt-4o", "o")
      ∧ sGeminiAnthropic.get_preferred_model
          = .ok ("gemini-2.0-flash-exp", "g")
      ∧ sAnthropicOnly.get_preferred_model
          = .ok ("claude-3-5-sonnet-20241022", "a")
      ∧ ({} : Settings).get_preferred_model
          = .error "No AI provider configured" := by
  refine ⟨?_, ?_, ?_, ?_⟩
  · exact (c7_preferred_model_priority sAllKeys).1 (by decide)
  · exact (c7_preferred_model_priority sGeminiAnthropic).2.1
      (by decide) (by decide)
  · exact (c7_preferred_model_priority sAnthropicOnly).2.2.1
      (by decide) (by decide) (by decide)
  · exact ((c7_preferred_model_priority {}).2.2.2).2 (by decide)

/-- C8 counterexample: a model identifier matching none of the three
substrings is not a fatal configuration error: the processor constructs
successfully and the environment is left untouched. -/
theorem c8_counterexample :
    InvoiceProcessor.setupEnvironment "mistral-large" "sk-test" {} = ({} : Env)
      ∧ InvoiceProcessor.init
          { openai_api_key := some "sk-test",
            openai_model := "mistral-large" } {}
          = .ok { model := "mistral-large", api_key := "sk-test",
                  env := {} } := by
  decide

/-- C8 amended: the adapter setup routes the credential by substring match
on the lowercased model identifier — "gpt" to the OpenAI variable, else
"gemini" to the Gemini variable, else "claude" to the Anthropic variable —
and a model identifier containing none of these substrings is silently
ignored: the environment is returned unchanged and no error is raised. -/
theorem c8_substring_routing (model key : String) (env : Env) :
    (strContains (pyLower model) "gpt" = true →
      InvoiceProcessor.setupEnvironment model key env
        = { env with openai_api_key := some key })
    ∧ (strContains (pyLower model) "gpt" = false →
        strContains (pyLower model) "gemini" = true →
        InvoiceProcessor.setupEnvironment model key env
          = { env with gemini_api_key := some key })
    ∧ (strContains (pyLower model) "gpt" = false →
        strContains (pyLower model) "gemini" = false →
        strContains (pyLower model) "claude" = true →
        InvoiceProcessor.setupEnvironment model key env
          = { env with anthropic_api_key := some key })
    ∧ (strContains (pyLower model) "gpt" = false →
        strContains (pyLower model) "gemini" = false →
        strContains (pyLower model) "claude" = false →
        InvoiceProcessor.setupEnvironment model key env = env) := by
  refine ⟨?_, ?_, ?_, ?_⟩
  · intro h1
    simp [InvoiceProcessor.setupEnvironment, h1]
  · intro h1 h2
    simp [InvoiceProcessor.setupEnvironment, h1, h2]
  · intro h1 h2 h3
    simp [InvoiceProcessor.setupEnvironment, h1, h2, h3]
  · intro h1 h2 h3
    simp [InvoiceProcessor.setupEnvironment, h1, h2, h3]

theorem c8_substring_routing_witness :
    InvoiceProcessor.setupEnvironment "gpt-4o" "k" {}
        = { openai_api_key := some "k" }
      ∧ InvoiceProcessor.setupEnvironment "gemini-2.0-flash-exp" "k" {}
          = { gemini_api_key := some "k" }
      ∧ InvoiceProcessor.setupEnvironment "claude-3-5-sonnet-20241022" "k" {}
          = { anthropic_api_key := some "k" }
      ∧ InvoiceProcessor.setupEnvironment "mistral-large" "k" {} = ({} : Env) := by
  refine ⟨?_, ?_, ?_, ?_⟩
  · exact (c8_substring_routing "gpt-4o" "k" {}).1 (by decide)
  · exact (c8_substring_routing "gemini-2.0-flash-exp" "k" {}).2.1
      (by decide) (by decide)
  · exact (c8_substring_routing "claude-3-5-sonnet-20241022" "k" {}).2.2.1
      (by decide) (by decide) (by decide)
  · exact (c8_substring_routing "mistral-large" "k" {}).2.2.2
      (by decide) (by decide) (by decide)

/-- C9: every `InvoiceData` the parser produces — on its normal path, its
failure-handler path, and as carried inside a successful envelope — has
`line_items` equal to the empty sequence, never null. -/
theorem c9_line_items_never_null (content errMsg : String) (elapsed : ℚ) :
    (InvoiceProcessor.parseExtractedData content).line_items = []
      ∧ (InvoiceProcessor.parseFailureFallback content errMsg).line_items = []
      ∧ (InvoiceProcessor.process_invoice elapsed
          (.ok content)).invoice_data.map InvoiceData.line_items = some [] :=
  ⟨rfl, rfl, rfl⟩

/-- C10: an exception with message `e` caught during extraction yields
exactly the failed envelope with `error_message` the string
"Processing failed: " followed by `e`, non-null `processing_time`, null
`invoice_data` and null `confidence_score`; the success envelope always
carries the constant confidence `0.9`. -/
theorem c10_failure_envelope (elapsed : ℚ) (e content : String) :
    InvoiceProcessor.process_invoice elapsed (.error e)
        = { success := false, invoice_data := none,
            error_message := some ("Processing failed: " ++ e),
            processing_time := some elapsed, confidence_score := none }
      ∧ (InvoiceProcessor.process_invoice elapsed
          (.ok content)).confidence_score = some (9 / 10) :=
  ⟨rfl, rfl⟩

end InvoicePipe
